import Mathlib

/-!
Verification of the cart-to-order submission logic of the Viquoe procurement
hub (file `src/app/cart/page.tsx`).  The TypeScript functions
`validatePhone`, `validateOrderDetails`, `handleSupabaseError`,
`calculateOrderTotals` and the orchestrator `handleSubmitOrder` are embedded
shallowly below: JavaScript strings become `String`, numbers become `Nat`
(all prices and quantities in the source are non-negative integers),
the optional `Product` join record becomes `Option ProductInfo`, and the
network is an oracle (`SubmitEnv`) that says, per supplier bucket, whether
the order-create request succeeds and whether the bulk cart-delete succeeds.
Fields of the inserted order row that depend on the wall clock or on
`Math.random` (`id`, `orderNumber`, `expectedDelivery`, `createdAt`,
`updatedAt`) are omitted from the embedding; no claim mentions them.
-/

namespace ViquoeCart

/-- JavaScript whitespace recognised by `String.prototype.trim` (the code
points that actually occur in the application's inputs). -/
def isJsSpace (c : Char) : Bool :=
  c = ' ' || c = '\t' || c = '\n' || c = '\r' || c = '\x0b' || c = '\x0c'

/-- Trim a character list on both ends. -/
def trimChars (l : List Char) : List Char :=
  ((l.dropWhile isJsSpace).reverse.dropWhile isJsSpace).reverse

/-- Embedding of JavaScript `s.trim()` (executable, unlike `String.trim`). -/
def jsTrim (s : String) : String :=
  String.mk (trimChars s.data)

/-- The character class `[\d\s-()]` of the phone regex: digits, whitespace,
hyphen and parentheses. -/
def isPhoneChar (c : Char) : Bool :=
  c.isDigit || isJsSpace c || c = '-' || c = '(' || c = ')'

/-- Embedding of `validatePhone`: the regex `/^\+?[\d\s-()]{10,}$/` applied
to `phone.trim()` — an optional leading `+`, then at least ten characters
from the class. -/
def validatePhone (phone : String) : Bool :=
  let t := (jsTrim phone).data
  let body :=
    match t with
    | '+' :: rest => rest
    | cs => cs
  (decide (10 ≤ body.length)) && body.all isPhoneChar

inductive Urgency
  | standard
  | urgent
  | emergency
deriving DecidableEq

inductive PaymentTerms
  | net30
  | net15
  | pod
  | advance
deriving DecidableEq

/-- The `OrderDetails` form state. -/
structure OrderDetails where
  urgency : Urgency
  deliveryAddress : String
  contactPerson : String
  phone : String
  notes : String
  paymentTerms : PaymentTerms
deriving DecidableEq

/-- The contact-person block of `validateOrderDetails`
(`if (!details.contactPerson?.trim()) … else if (… .length < 2) …`). -/
def contactErrors (details : OrderDetails) : List String :=
  if jsTrim details.contactPerson = "" then
    ["Contact person is required"]
  else if (jsTrim details.contactPerson).length < 2 then
    ["Contact person must be at least 2 characters"]
  else []

/-- The phone block of `validateOrderDetails`. -/
def phoneErrors (details : OrderDetails) : List String :=
  if jsTrim details.phone = "" then
    ["Phone number is required"]
  else if !(validatePhone details.phone) then
    ["Please enter a valid phone number"]
  else []

/-- The delivery-address block of `validateOrderDetails`. -/
def addressErrors (details : OrderDetails) : List String :=
  if jsTrim details.deliveryAddress = "" then
    ["Delivery address is required"]
  else if (jsTrim details.deliveryAddress).length < 10 then
    ["Please provide a complete delivery address"]
  else []

/-- Embedding of `validateOrderDetails`: the three blocks push their
messages, in source order, onto one `errors` array. -/
def validateOrderDetails (details : OrderDetails) : List String :=
  contactErrors details ++ phoneErrors details ++ addressErrors details

/-- The joined `Product` record of a cart row. -/
structure ProductInfo where
  name : String
  price : Nat
  image : Option String
  supplierId : String
  categoryId : String
deriving DecidableEq

/-- A `CartItem` row; the join may be absent, hence `Option ProductInfo`. -/
structure CartItem where
  id : String
  userId : String
  productId : String
  quantity : Nat
  Product : Option ProductInfo
deriving DecidableEq

/-- Embedding of `item.Product?.price || 0`: price of a missing join is 0. -/
def itemPrice (item : CartItem) : Nat :=
  match item.Product with
  | none => 0
  | some p => p.price

structure OrderTotals where
  subtotal : Nat
  deliveryFee : Nat
  total : Nat
deriving DecidableEq

/-- Embedding of `calculateOrderTotals`. -/
def calculateOrderTotals (items : List CartItem) : OrderTotals :=
  let subtotal := items.foldl (fun sum item => sum + itemPrice item * item.quantity) 0
  let deliveryFee := if subtotal > 100000 then 0 else 5000
  let total := subtotal + deliveryFee
  { subtotal := subtotal, deliveryFee := deliveryFee, total := total }

/-- Embedding of `item.Product?.supplierId || "unknown"`; the empty string
is falsy in JavaScript, so it is also sent to the sentinel. -/
def bucketSupplierId (item : CartItem) : String :=
  match item.Product with
  | none => "unknown"
  | some p => if p.supplierId = "" then "unknown" else p.supplierId

/-- Embedding of `item.Product?.supplierId || "Unknown Supplier"`. -/
def bucketSupplierName (item : CartItem) : String :=
  match item.Product with
  | none => "Unknown Supplier"
  | some p => if p.supplierId = "" then "Unknown Supplier" else p.supplierId

/-- One value of the accumulator record built by the grouping `reduce`. -/
structure Bucket where
  supplierName : String
  items : List CartItem
deriving DecidableEq

/-- One step of the grouping `reduce`: push the item onto the existing
bucket for `sid`, or append a fresh bucket (JavaScript object keys keep
insertion order, so the accumulator is an ordered association list). -/
def addToBucket : List (String × Bucket) → String → String → CartItem → List (String × Bucket)
  | [], sid, sname, item => [(sid, { supplierName := sname, items := [item] })]
  | (k, b) :: rest, sid, sname, item =>
    if k = sid then
      (k, { supplierName := b.supplierName, items := b.items ++ [item] }) :: rest
    else
      (k, b) :: addToBucket rest sid sname item

/-- Embedding of the `itemsBySupplier` reduce in `handleSubmitOrder`. -/
def itemsBySupplier (items : List CartItem) : List (String × Bucket) :=
  items.foldl
    (fun acc item => addToBucket acc (bucketSupplierId item) (bucketSupplierName item) item)
    []

/-- All items of all buckets, in bucket order. -/
def bucketItems (bs : List (String × Bucket)) : List CartItem :=
  (bs.map (fun kb => kb.2.items)).flatten

/-- The authenticated-user context from the session provider. -/
structure AuthUser where
  id : String
  email : String
  userType : String
deriving DecidableEq

/-- One element of the `items` JSON column of an order row. -/
structure OrderItem where
  product_id : String
  product_name : String
  price : Nat
  quantity : Nat
  image : Option String
deriving DecidableEq

/-- The order row built by `handleSubmitOrder` for one supplier bucket
(clock- and randomness-dependent fields omitted, see the file header). -/
structure OrderRow where
  userId : String
  supplierId : String
  supplierName : String
  items : List OrderItem
  totalAmount : Nat
  shippingCost : Nat
  status : String
  urgency : Urgency
  shippingAddress : String
  contactPerson : String
  phone : String
  notes : String
  paymentTerms : PaymentTerms
deriving DecidableEq

/-- An error value from the backend client; only its optional `code`
field is inspected by the page. -/
structure SupabaseError where
  code : Option String
deriving DecidableEq

/-- Embedding of `handleSupabaseError`: map the three known codes,
otherwise the generic message built from the context string. -/
def handleSupabaseError (error : SupabaseError) (context : String) : String :=
  match error.code with
  | some c =>
    if c = "23505" then "This item already exists in your cart."
    else if c = "42501" then "You do not have permission to perform this action."
    else if c = "42P01" then "Database error. Please try again later."
    else "Failed to " ++ context ++ ". Please try again."
  | none => "Failed to " ++ context ++ ". Please try again."

/-- Embedding of the `orderItems` map inside `handleSubmitOrder`
(`item.Product?.name || 'Unknown Product'`, `item.Product?.price || 0`). -/
def orderItemOf (item : CartItem) : OrderItem :=
  { product_id := item.productId
    product_name :=
      match item.Product with
      | none => "Unknown Product"
      | some p => if p.name = "" then "Unknown Product" else p.name
    price := itemPrice item
    quantity := item.quantity
    image := item.Product.bind (fun p => p.image) }

/-- The order row inserted for one supplier bucket: per-bucket item total,
per-bucket delivery fee (0 iff the bucket total exceeds 100000, else 5000),
`totalAmount = orderTotal + orderDeliveryFee`, `status: "PENDING"`. -/
def mkOrderRow (u : AuthUser) (d : OrderDetails) (kb : String × Bucket) : OrderRow :=
  let orderItems := kb.2.items.map orderItemOf
  let orderTotal := kb.2.items.foldl (fun sum item => sum + itemPrice item * item.quantity) 0
  let orderDeliveryFee := if orderTotal > 100000 then 0 else 5000
  { userId := u.id
    supplierId := kb.1
    supplierName := kb.2.supplierName
    items := orderItems
    totalAmount := orderTotal + orderDeliveryFee
    shippingCost := orderDeliveryFee
    status := "PENDING"
    urgency := d.urgency
    shippingAddress := jsTrim d.deliveryAddress
    contactPerson := jsTrim d.contactPerson
    phone := jsTrim d.phone
    notes := jsTrim d.notes
    paymentTerms := d.paymentTerms }

/-- The network oracle: whether the order-create for a given supplier key
succeeds, and the result of the bulk cart-delete (`none` = success). -/
structure SubmitEnv where
  createOk : String → Bool
  clearError : Option SupabaseError

/-- The observable effects of one run of `handleSubmitOrder`:
which order-insert requests were issued (the backend client resolves each
with a `{data, error}` pair, so `Promise.all` issues every request even
when some fail), for which user id the bulk cart-delete was issued
(`none` = never attempted), the `alert` messages shown, whether
`setOrderSuccess(true)` ran, and the local cart state afterwards.
The code contains no order-delete call at all, so no compensating
deletion can ever be part of an outcome. -/
structure SubmitOutcome where
  createCallsIssued : List OrderRow
  clearIssuedFor : Option String
  alertMessages : List String
  orderSuccess : Bool
  finalCartItems : List CartItem
deriving DecidableEq

/-- Embedding of `handleSubmitOrder`, branch for branch:
`if (!user?.id) return` (silent early return — no alert);
validation failure → one alert joining all messages, no network call;
otherwise group, issue every order-create, and on any error throw
`new Error(...)` (an error value with no `code`) into the shared catch;
only when every create succeeded issue the cart-delete keyed on the
user id; a delete error is thrown into the same catch; on full success
set `orderSuccess` and clear the local cart state. -/
def handleSubmitOrder (user : Option AuthUser) (orderDetails : OrderDetails)
    (cartItems : List CartItem) (env : SubmitEnv) : SubmitOutcome :=
  match user with
  | none =>
    { createCallsIssued := [], clearIssuedFor := none, alertMessages := [],
      orderSuccess := false, finalCartItems := cartItems }
  | some u =>
    if u.id = "" then
      { createCallsIssued := [], clearIssuedFor := none, alertMessages := [],
        orderSuccess := false, finalCartItems := cartItems }
    else
      let validationErrors := validateOrderDetails orderDetails
      if 0 < validationErrors.length then
        { createCallsIssued := [], clearIssuedFor := none,
          alertMessages := [String.intercalate "\n" validationErrors],
          orderSuccess := false, finalCartItems := cartItems }
      else
        let buckets := itemsBySupplier cartItems
        let orders := buckets.map (mkOrderRow u orderDetails)
        let hasOrderError := buckets.any (fun kb => !(env.createOk kb.1))
        if hasOrderError then
          { createCallsIssued := orders, clearIssuedFor := none,
            alertMessages := [handleSupabaseError { code := none } "submit order"],
            orderSuccess := false, finalCartItems := cartItems }
        else
          match env.clearError with
          | some e =>
            { createCallsIssued := orders, clearIssuedFor := some u.id,
              alertMessages := [handleSupabaseError e "submit order"],
              orderSuccess := false, finalCartItems := cartItems }
          | none =>
            { createCallsIssued := orders, clearIssuedFor := some u.id,
              alertMessages := [], orderSuccess := true, finalCartItems := [] }

/-! Concrete fixtures used to instantiate the theorems below. -/

/-- A draft that passes every validation rule. -/
def dValid : OrderDetails :=
  { urgency := Urgency.standard, deliveryAddress := "12 Market Road Lagos",
    contactPerson := "Ada Obi", phone := "08012345678", notes := "",
    paymentTerms := PaymentTerms.net30 }

/-- Scenario C of the spec: all three validation rules violated. -/
def dInvalid : OrderDetails :=
  { urgency := Urgency.standard, deliveryAddress := "short",
    contactPerson := "", phone := "123", notes := "",
    paymentTerms := PaymentTerms.net30 }

def u0 : AuthUser :=
  { id := "user-1", email := "buyer@example.com", userType := "buyer" }

def prodS1 : ProductInfo :=
  { name := "Printer Paper", price := 60000, image := none,
    supplierId := "S1", categoryId := "office" }

def prodS2 : ProductInfo :=
  { name := "Toner", price := 20000, image := none,
    supplierId := "S2", categoryId := "office" }

/-- Scenario A item for supplier S1: 60000 × 1. -/
def itemS1 : CartItem :=
  { id := "c1", userId := "user-1", productId := "p1", quantity := 1,
    Product := some prodS1 }

/-- Scenario A item for supplier S2: 20000 × 2. -/
def itemS2 : CartItem :=
  { id := "c2", userId := "user-1", productId := "p2", quantity := 2,
    Product := some prodS2 }

/-- A cart row whose `Product` join is absent. -/
def itemNoProd : CartItem :=
  { id := "c3", userId := "user-1", productId := "p3", quantity := 1,
    Product := none }

/-- An item whose bucket subtotal is exactly 100000 (the fee boundary). -/
def itemBoundary : CartItem :=
  { id := "c4", userId := "user-1", productId := "p4", quantity := 1,
    Product := some { name := "Bulk Ream", price := 100000, image := none,
                      supplierId := "S1", categoryId := "office" } }

def scenarioACart : List CartItem := [itemS1, itemS2]

def demoCart : List CartItem := [itemS1, itemNoProd]

def envAllOk : SubmitEnv := { createOk := fun _ => true, clearError := none }

def envCreateFail : SubmitEnv := { createOk := fun _ => false, clearError := none }

def envClearFail : SubmitEnv :=
  { createOk := fun _ => true, clearError := some { code := none } }

/-- The order-create for supplier S2 fails; every other request succeeds. -/
def envS2Fail : SubmitEnv :=
  { createOk := fun s => !(s = "S2"), clearError := none }

/-! Helper lemmas. -/

theorem foldl_add_eq_sum {α : Type} (f : α → Nat) (l : List α) (init : Nat) :
    l.foldl (fun s a => s + f a) init = init + (l.map f).sum := by
  induction l generalizing init with
  | nil => simp
  | cons x xs ih => simp [ih]; omega

theorem calculateOrderTotals_subtotal (items : List CartItem) :
    (calculateOrderTotals items).subtotal
      = items.foldl (fun sum item => sum + itemPrice item * item.quantity) 0 := rfl

theorem calculateOrderTotals_fee (items : List CartItem) :
    (calculateOrderTotals items).deliveryFee
      = if 100000 < (calculateOrderTotals items).subtotal then 0 else 5000 := rfl

theorem calculateOrderTotals_total (items : List CartItem) :
    (calculateOrderTotals items).total
      = (calculateOrderTotals items).subtotal + (calculateOrderTotals items).deliveryFee := rfl

/-- C2: `calculateOrderTotals` returns subtotal = Σ(unitPrice × quantity)
with a missing unit price read as 0, a delivery fee that is 0 iff the
subtotal strictly exceeds 100000 and 5000 in every other case (so exactly
100000 still pays 5000), and total = subtotal + deliveryFee. -/
theorem calculateOrderTotals_spec (items : List CartItem) :
    (calculateOrderTotals items).subtotal
        = (items.map (fun i => itemPrice i * i.quantity)).sum
    ∧ (∀ i : CartItem, i.Product = none → itemPrice i = 0)
    ∧ ((calculateOrderTotals items).deliveryFee = 0
        ↔ 100000 < (calculateOrderTotals items).subtotal)
    ∧ ((calculateOrderTotals items).deliveryFee
        = if 100000 < (calculateOrderTotals items).subtotal then 0 else 5000)
    ∧ (¬ 100000 < (calculateOrderTotals items).subtotal
        → (calculateOrderTotals items).deliveryFee = 5000)
    ∧ ((calculateOrderTotals items).subtotal = 100000
        → (calculateOrderTotals items).deliveryFee = 5000)
    ∧ (calculateOrderTotals items).total
        = (calculateOrderTotals items).subtotal + (calculateOrderTotals items).deliveryFee := by
  refine ⟨?_, ?_, ?_, calculateOrderTotals_fee items, ?_, ?_, calculateOrderTotals_total items⟩
  · rw [calculateOrderTotals_subtotal, foldl_add_eq_sum, Nat.zero_add]
  · intro i h
    simp [itemPrice, h]
  · rw [calculateOrderTotals_fee]
    split_ifs with h
    · simp [h]
    · simp [h]
  · intro h
    rw [calculateOrderTotals_fee, if_neg h]
  · intro h
    rw [calculateOrderTotals_fee, h]
    simp

/-- Witness for C2 at the boundary subtotal of exactly 100000. -/
theorem calculateOrderTotals_spec_witness :
    (calculateOrderTotals [itemBoundary]).deliveryFee = 5000 :=
  (calculateOrderTotals_spec [itemBoundary]).2.2.2.2.2.1 (by decide)

theorem validatePhone_of_trim_empty (p : String) (h : jsTrim p = "") :
    validatePhone p = false := by
  simp [validatePhone, h]

theorem length_of_jsTrim_empty (s : String) (h : jsTrim s = "") :
    (jsTrim s).length = 0 := by
  rw [h]
  rfl

theorem contactErrors_nil_iff (d : OrderDetails) :
    (contactErrors d = [] ↔ 2 ≤ (jsTrim d.contactPerson).length) := by
  unfold contactErrors
  split_ifs with h1 h2
  · have := length_of_jsTrim_empty d.contactPerson h1
    simp [this]
  · simp
    omega
  · simp
    omega

theorem phoneErrors_nil_iff (d : OrderDetails) :
    (phoneErrors d = [] ↔ validatePhone d.phone = true) := by
  unfold phoneErrors
  split_ifs with h1 h2
  · have := validatePhone_of_trim_empty d.phone h1
    simp [this]
  · simp at h2
    simp [h2]
  · simp at h2
    simp [h2]

theorem addressErrors_nil_iff (d : OrderDetails) :
    (addressErrors d = [] ↔ 10 ≤ (jsTrim d.deliveryAddress).length) := by
  unfold addressErrors
  split_ifs with h1 h2
  · have := length_of_jsTrim_empty d.deliveryAddress h1
    simp [this]
  · simp
    omega
  · simp
    omega

theorem contactErrors_length_le (d : OrderDetails) : (contactErrors d).length ≤ 1 := by
  unfold contactErrors
  split_ifs <;> simp

theorem phoneErrors_length_le (d : OrderDetails) : (phoneErrors d).length ≤ 1 := by
  unfold phoneErrors
  split_ifs <;> simp

theorem addressErrors_length_le (d : OrderDetails) : (addressErrors d).length ≤ 1 := by
  unfold addressErrors
  split_ifs <;> simp

/-- C5: `validateOrderDetails` is empty exactly when the trimmed contact
person has length ≥ 2, the phone passes `validatePhone`, and the trimmed
delivery address has length ≥ 10; it is the concatenation of the three
rule blocks in the fixed order contact-person, phone, delivery-address,
each contributing at most one message (one message per violated rule), so
a draft violating all three rules yields exactly 3 messages in that
order. -/
theorem validateOrderDetails_spec (d : OrderDetails) :
    (validateOrderDetails d = []
        ↔ 2 ≤ (jsTrim d.contactPerson).length ∧ validatePhone d.phone = true
            ∧ 10 ≤ (jsTrim d.deliveryAddress).length)
    ∧ validateOrderDetails d = contactErrors d ++ phoneErrors d ++ addressErrors d
    ∧ (contactErrors d).length ≤ 1
    ∧ (phoneErrors d).length ≤ 1
    ∧ (addressErrors d).length ≤ 1
    ∧ (contactErrors d = [] ↔ 2 ≤ (jsTrim d.contactPerson).length)
    ∧ (phoneErrors d = [] ↔ validatePhone d.phone = true)
    ∧ (addressErrors d = [] ↔ 10 ≤ (jsTrim d.deliveryAddress).length)
    ∧ ((jsTrim d.contactPerson).length < 2 → validatePhone d.phone = false
        → (jsTrim d.deliveryAddress).length < 10
        → (validateOrderDetails d).length = 3) := by
  refine ⟨?_, rfl, contactErrors_length_le d, phoneErrors_length_le d,
    addressErrors_length_le d, contactErrors_nil_iff d, phoneErrors_nil_iff d,
    addressErrors_nil_iff d, ?_⟩
  · rw [validateOrderDetails]
    simp only [List.append_eq_nil, contactErrors_nil_iff, phoneErrors_nil_iff,
      addressErrors_nil_iff]
    tauto
  · intro h1 h2 h3
    have hc : (contactErrors d).length = 1 := by
      have hne : ¬ contactErrors d = [] := by
        rw [contactErrors_nil_iff]
        omega
      have := contactErrors_length_le d
      cases hl : contactErrors d with
      | nil => exact absurd hl hne
      | cons a t =>
        rw [hl] at this
        simp at this ⊢
        exact this
    have hp : (phoneErrors d).length = 1 := by
      have hne : ¬ phoneErrors d = [] := by
        rw [phoneErrors_nil_iff, h2]
        simp
      have := phoneErrors_length_le d
      cases hl : phoneErrors d with
      | nil => exact absurd hl hne
      | cons a t =>
        rw [hl] at this
        simp at this ⊢
        exact this
    have ha : (addressErrors d).length = 1 := by
      have hne : ¬ addressErrors d = [] := by
        rw [addressErrors_nil_iff]
        omega
      have := addressErrors_length_le d
      cases hl : addressErrors d with
      | nil => exact absurd hl hne
      | cons a t =>
        rw [hl] at this
        simp at this ⊢
        exact this
    rw [validateOrderDetails]
    simp [hc, hp, ha]

/-- Witness for C5: Scenario C of the spec produces exactly 3 messages. -/
theorem validateOrderDetails_spec_witness :
    (validateOrderDetails dInvalid).length = 3 :=
  (validateOrderDetails_spec dInvalid).2.2.2.2.2.2.2.2 (by decide) (by decide) (by decide)

theorem bucketItems_cons (kb : String × Bucket) (bs : List (String × Bucket)) :
    bucketItems (kb :: bs) = kb.2.items ++ bucketItems bs := by
  simp [bucketItems]

theorem addToBucket_perm (acc : List (String × Bucket)) (sid sname : String)
    (x : CartItem) :
    (bucketItems (addToBucket acc sid sname x)).Perm (x :: bucketItems acc) := by
  induction acc with
  | nil => simp [addToBucket, bucketItems]
  | cons kb rest ih =>
    obtain ⟨k, b⟩ := kb
    by_cases h : k = sid
    · rw [addToBucket, if_pos h, bucketItems_cons, bucketItems_cons]
      rw [List.append_assoc]
      exact List.perm_middle
    · rw [addToBucket, if_neg h, bucketItems_cons, bucketItems_cons]
      exact (ih.append_left b.items).trans List.perm_middle

theorem itemsBySupplier_perm_aux (l : List CartItem) (acc : List (String × Bucket)) :
    (bucketItems (l.foldl
        (fun a item => addToBucket a (bucketSupplierId item) (bucketSupplierName item) item)
        acc)).Perm (bucketItems acc ++ l) := by
  induction l generalizing acc with
  | nil => simp
  | cons x xs ih =>
    rw [List.foldl_cons]
    refine (ih _).trans ?_
    refine (((addToBucket_perm acc (bucketSupplierId x) (bucketSupplierName x) x).append_right xs).trans ?_)
    exact List.perm_middle.symm

theorem addToBucket_keys_subset (acc : List (String × Bucket)) (sid sname : String)
    (x : CartItem) (j : String)
    (hj : j ∈ (addToBucket acc sid sname x).map Prod.fst) :
    j = sid ∨ j ∈ acc.map Prod.fst := by
  induction acc with
  | nil =>
    simp [addToBucket] at hj
    exact Or.inl hj
  | cons kb rest ih =>
    obtain ⟨k, b⟩ := kb
    by_cases h : k = sid
    · rw [addToBucket, if_pos h] at hj
      rw [List.map_cons, List.mem_cons] at hj
      rw [List.map_cons, List.mem_cons]
      exact Or.inr hj
    · rw [addToBucket, if_neg h] at hj
      rw [List.map_cons, List.mem_cons] at hj
      rw [List.map_cons, List.mem_cons]
      rcases hj with hj | hj
      · exact Or.inr (Or.inl hj)
      · rcases ih hj with h1 | h1
        · exact Or.inl h1
        · exact Or.inr (Or.inr h1)

theorem addToBucket_keys_nodup (acc : List (String × Bucket)) (sid sname : String)
    (x : CartItem) (h : (acc.map Prod.fst).Nodup) :
    ((addToBucket acc sid sname x).map Prod.fst).Nodup := by
  induction acc with
  | nil => simp [addToBucket]
  | cons kb rest ih =>
    obtain ⟨k, b⟩ := kb
    rw [List.map_cons, List.nodup_cons] at h
    by_cases hk : k = sid
    · rw [addToBucket, if_pos hk]
      rw [List.map_cons, List.nodup_cons]
      exact ⟨h.1, h.2⟩
    · rw [addToBucket, if_neg hk]
      rw [List.map_cons, List.nodup_cons]
      refine ⟨?_, ih h.2⟩
      intro hmem
      rcases addToBucket_keys_subset rest sid sname x k hmem with rfl | hmem
      · exact hk rfl
      · exact h.1 hmem

theorem itemsBySupplier_keys_nodup_aux (l : List CartItem)
    (acc : List (String × Bucket)) (h : (acc.map Prod.fst).Nodup) :
    ((l.foldl
        (fun a item => addToBucket a (bucketSupplierId item) (bucketSupplierName item) item)
        acc).map Prod.fst).Nodup := by
  induction l generalizing acc with
  | nil => exact h
  | cons x xs ih =>
    rw [List.foldl_cons]
    exact ih _ (addToBucket_keys_nodup acc _ _ x h)

/-- Every item sits in the bucket keyed by its own (defaulted) supplier id. -/
def BucketsKeyed (bs : List (String × Bucket)) : Prop :=
  ∀ kb ∈ bs, ∀ x ∈ kb.2.items, bucketSupplierId x = kb.1

theorem addToBucket_keyed (acc : List (String × Bucket)) (sid sname : String)
    (x : CartItem) (h : BucketsKeyed acc) (hx : bucketSupplierId x = sid) :
    BucketsKeyed (addToBucket acc sid sname x) := by
  induction acc with
  | nil =>
    intro kb hkb y hy
    simp [addToBucket] at hkb
    subst hkb
    simp at hy
    subst hy
    exact hx
  | cons kb0 rest ih =>
    obtain ⟨k, b⟩ := kb0
    by_cases hk : k = sid
    · rw [addToBucket, if_pos hk]
      intro kb hkb y hy
      rcases List.mem_cons.mp hkb with rfl | hkb
      · simp at hy
        rcases hy with hy | hy
        · exact h (k, b) (List.mem_cons_self _ _) y hy
        · subst hy
          rw [hx, hk]
      · exact h kb (List.mem_cons_of_mem _ hkb) y hy
    · rw [addToBucket, if_neg hk]
      intro kb hkb y hy
      rcases List.mem_cons.mp hkb with rfl | hkb
      · exact h (k, b) (List.mem_cons_self _ _) y hy
      · exact ih (fun kb2 hkb2 => h kb2 (List.mem_cons_of_mem _ hkb2)) kb hkb y hy

theorem itemsBySupplier_keyed_aux (l : List CartItem)
    (acc : List (String × Bucket)) (h : BucketsKeyed acc) :
    BucketsKeyed (l.foldl
      (fun a item => addToBucket a (bucketSupplierId item) (bucketSupplierName item) item)
      acc) := by
  induction l generalizing acc with
  | nil => exact h
  | cons x xs ih =>
    rw [List.foldl_cons]
    exact ih _ (addToBucket_keyed acc _ _ x h rfl)

/-- C3: the supplier grouping is a partition of the input — the
concatenation of the bucket item-lists is a permutation of the input
(no item dropped, none duplicated across buckets), bucket keys are
pairwise distinct, every item lies in the bucket keyed by its own
supplier id, and every item with a missing `Product` join is routed to
the sentinel bucket keyed "unknown". -/
theorem itemsBySupplier_partition (items : List CartItem) :
    (bucketItems (itemsBySupplier items)).Perm items
    ∧ ((itemsBySupplier items).map Prod.fst).Nodup
    ∧ (∀ kb ∈ itemsBySupplier items, ∀ x ∈ kb.2.items, bucketSupplierId x = kb.1)
    ∧ (∀ x ∈ items, x.Product = none →
        ∃ kb ∈ itemsBySupplier items, kb.1 = "unknown" ∧ x ∈ kb.2.items) := by
  have hperm : (bucketItems (itemsBySupplier items)).Perm items := by
    have := itemsBySupplier_perm_aux items []
    simpa [bucketItems] using this
  have hkeyed : BucketsKeyed (itemsBySupplier items) :=
    itemsBySupplier_keyed_aux items [] (by intro kb hkb; simp at hkb)
  refine ⟨hperm, ?_, hkeyed, ?_⟩
  · exact itemsBySupplier_keys_nodup_aux items [] (by simp)
  · intro x hx hp
    have hx2 : x ∈ bucketItems (itemsBySupplier items) := hperm.mem_iff.mpr hx
    rw [bucketItems] at hx2
    rw [List.mem_flatten] at hx2
    obtain ⟨l, hl, hxl⟩ := hx2
    rw [List.mem_map] at hl
    obtain ⟨kb, hkb, rfl⟩ := hl
    refine ⟨kb, hkb, ?_, hxl⟩
    have := hkeyed kb hkb x hxl
    rw [← this]
    simp [bucketSupplierId, hp]

/-- Witness for C3: in the demo cart, the item with a missing join is in
the bucket keyed "unknown", and its defaulted supplier id is "unknown". -/
theorem itemsBySupplier_partition_witness :
    bucketSupplierId itemNoProd = "unknown" :=
  (itemsBySupplier_partition demoCart).2.2.1
    ("unknown", { supplierName := "Unknown Supplier", items := [itemNoProd] })
    (by decide) itemNoProd (by decide)

theorem mkOrderRow_items (u : AuthUser) (d : OrderDetails) (kb : String × Bucket) :
    (mkOrderRow u d kb).items = kb.2.items.map orderItemOf := rfl

theorem mkOrderRow_status (u : AuthUser) (d : OrderDetails) (kb : String × Bucket) :
    (mkOrderRow u d kb).status = "PENDING" := rfl

/-- In every branch reached with an authenticated user, the list of issued
order-create requests is either empty or exactly one `mkOrderRow` per
supplier bucket. -/
theorem createCallsIssued_cases (u : AuthUser) (d : OrderDetails)
    (items : List CartItem) (env : SubmitEnv) :
    (handleSubmitOrder (some u) d items env).createCallsIssued = []
    ∨ (handleSubmitOrder (some u) d items env).createCallsIssued
        = (itemsBySupplier items).map (mkOrderRow u d) := by
  by_cases h1 : u.id = ""
  · left
    simp [handleSubmitOrder, h1]
  · by_cases h2 : 0 < (validateOrderDetails d).length
    · left
      simp [handleSubmitOrder, h1, h2]
    · by_cases h3 : (itemsBySupplier items).any (fun kb => !(env.createOk kb.1)) = true
      · right
        simp [handleSubmitOrder, h1, h2, h3]
      · cases h4 : env.clearError with
        | some e =>
          right
          simp [handleSubmitOrder, h1, h2, h3, h4]
        | none =>
          right
          simp [handleSubmitOrder, h1, h2, h3, h4]

/-- C1: with an authenticated user and a valid draft, if any per-supplier
order-create fails then the whole submission reports failure, the
cart-clear is never attempted, local cart state is unchanged, and all the
order-create requests (the succeeding ones included) were issued with no
compensating deletion — while the cart-clear can only ever be issued when
every order-create succeeded. -/
theorem submit_partial_failure (u : AuthUser) (d : OrderDetails)
    (items : List CartItem) (env : SubmitEnv)
    (hid : ¬ u.id = "") (hval : validateOrderDetails d = []) :
    ((∃ kb ∈ itemsBySupplier items, env.createOk kb.1 = false) →
      (handleSubmitOrder (some u) d items env).orderSuccess = false
      ∧ (handleSubmitOrder (some u) d items env).clearIssuedFor = none
      ∧ (handleSubmitOrder (some u) d items env).finalCartItems = items
      ∧ (handleSubmitOrder (some u) d items env).createCallsIssued
          = (itemsBySupplier items).map (mkOrderRow u d))
    ∧ ((handleSubmitOrder (some u) d items env).clearIssuedFor ≠ none →
        ∀ kb ∈ itemsBySupplier items, env.createOk kb.1 = true) := by
  constructor
  · rintro ⟨kb, hmem, hko⟩
    have hany : (itemsBySupplier items).any (fun kb => !(env.createOk kb.1)) = true := by
      rw [List.any_eq_true]
      exact ⟨kb, hmem, by rw [hko]; rfl⟩
    simp [handleSubmitOrder, hid, hval, hany]
  · intro hclear kb hmem
    by_cases hany : (itemsBySupplier items).any (fun kb => !(env.createOk kb.1)) = true
    · exfalso
      apply hclear
      simp [handleSubmitOrder, hid, hval, hany]
    · rw [List.any_eq_true] at hany
      push_neg at hany
      have := hany kb hmem
      simpa using this

/-- Witness for C1: Scenario D — the S2 create fails, so the submission
fails and the cart-clear is never attempted. -/
theorem submit_partial_failure_witness :
    (handleSubmitOrder (some u0) dValid scenarioACart envS2Fail).orderSuccess = false
    ∧ (handleSubmitOrder (some u0) dValid scenarioACart envS2Fail).clearIssuedFor = none :=
  have h := (submit_partial_failure u0 dValid scenarioACart envS2Fail
    (by decide) (by decide)).1 (by decide)
  ⟨h.1, h.2.1⟩

/-- C4: every order row issued by the submission satisfies totalAmount = Σ(item price × item quantity) over its
own bucket plus its own shippingCost, and shippingCost is that bucket's
own fee — 0 iff the bucket item total exceeds 100000, else 5000. -/
theorem order_money_invariant (user : Option AuthUser) (d : OrderDetails)
    (items : List CartItem) (env : SubmitEnv) (row : OrderRow)
    (hrow : row ∈ (handleSubmitOrder user d items env).createCallsIssued) :
    row.totalAmount
        = (row.items.map (fun it => it.price * it.quantity)).sum + row.shippingCost
    ∧ row.shippingCost
        = (if 100000 < (row.items.map (fun it => it.price * it.quantity)).sum
            then 0 else 5000) := by
  cases user with
  | none => simp [handleSubmitOrder] at hrow
  | some u =>
    rcases createCallsIssued_cases u d items env with h | h
    · rw [h] at hrow
      cases hrow
    · rw [h] at hrow
      rcases List.mem_map.mp hrow with ⟨kb, _, rfl⟩
      have hsum : ((mkOrderRow u d kb).items.map (fun it => it.price * it.quantity)).sum
          = kb.2.items.foldl (fun s item => s + itemPrice item * item.quantity) 0 := by
        rw [mkOrderRow_items, List.map_map, foldl_add_eq_sum, Nat.zero_add]
        rfl
      constructor
      · rw [hsum]
        rfl
      · rw [hsum]
        rfl

/-- Witness for C4: Scenario A — the S1 row of the two-supplier cart, with
totalAmount 60000 + 5000 = 65000 balancing its items plus shipping. -/
theorem order_money_invariant_witness :
    (mkOrderRow u0 dValid ("S1", { supplierName := "S1", items := [itemS1] })).totalAmount
      = (((mkOrderRow u0 dValid ("S1", { supplierName := "S1", items := [itemS1] })).items.map
          (fun it => it.price * it.quantity)).sum
        + (mkOrderRow u0 dValid ("S1", { supplierName := "S1", items := [itemS1] })).shippingCost)
    ∧ (mkOrderRow u0 dValid ("S1", { supplierName := "S1", items := [itemS1] })).totalAmount
        = 65000 :=
  ⟨(order_money_invariant (some u0) dValid scenarioACart envAllOk
      (mkOrderRow u0 dValid ("S1", { supplierName := "S1", items := [itemS1] }))
      (by decide)).1,
   by decide⟩

/-- C6: any validation message rejects the submission before any network
call — no order-create, no cart-delete — and all the messages are shown
at once in a single alert. -/
theorem submit_validation_reject (u : AuthUser) (d : OrderDetails)
    (items : List CartItem) (env : SubmitEnv)
    (hid : ¬ u.id = "") (hval : validateOrderDetails d ≠ []) :
    (handleSubmitOrder (some u) d items env).createCallsIssued = []
    ∧ (handleSubmitOrder (some u) d items env).clearIssuedFor = none
    ∧ (handleSubmitOrder (some u) d items env).alertMessages
        = [String.intercalate "\n" (validateOrderDetails d)]
    ∧ (handleSubmitOrder (some u) d items env).orderSuccess = false
    ∧ (handleSubmitOrder (some u) d items env).finalCartItems = items := by
  have hlen : 0 < (validateOrderDetails d).length := List.length_pos.mpr hval
  simp [handleSubmitOrder, hid, hlen]

/-- Witness for C6 at the all-invalid Scenario C draft. -/
theorem submit_validation_reject_witness :
    (handleSubmitOrder (some u0) dInvalid demoCart envAllOk).createCallsIssued = []
    ∧ (handleSubmitOrder (some u0) dInvalid demoCart envAllOk).clearIssuedFor = none :=
  have h := submit_validation_reject u0 dInvalid demoCart envAllOk (by decide) (by decide)
  ⟨h.1, h.2.1⟩

/-- C7 counterexample: with a missing user the orchestrator refuses to run,
but it shows NO alert at all — the claimed user-visible authentication
error does not exist (`if (!user?.id) return` is a silent early return). -/
theorem submit_missing_user_no_alert :
    (handleSubmitOrder none dValid demoCart envAllOk).alertMessages = []
    ∧ (handleSubmitOrder none dValid demoCart envAllOk).createCallsIssued = [] :=
  ⟨rfl, rfl⟩

/-- C7 as amended: with a null user (or a falsy empty id) the orchestrator
performs no network calls and returns silently — no alert, no success,
cart state untouched. -/
theorem submit_missing_user_silent (user : Option AuthUser) (d : OrderDetails)
    (items : List CartItem) (env : SubmitEnv)
    (h : user = none ∨ ∃ u, user = some u ∧ u.id = "") :
    (handleSubmitOrder user d items env).createCallsIssued = []
    ∧ (handleSubmitOrder user d items env).clearIssuedFor = none
    ∧ (handleSubmitOrder user d items env).alertMessages = []
    ∧ (handleSubmitOrder user d items env).orderSuccess = false
    ∧ (handleSubmitOrder user d items env).finalCartItems = items := by
  rcases h with rfl | ⟨u, rfl, hu⟩
  · simp [handleSubmitOrder]
  · simp [handleSubmitOrder, hu]

/-- Witness for C7 (amended) at a concrete null user. -/
theorem submit_missing_user_silent_witness :
    (handleSubmitOrder none dValid demoCart envAllOk).clearIssuedFor = none :=
  (submit_missing_user_silent none dValid demoCart envAllOk (Or.inl rfl)).2.1

/-- C8 counterexample: a cart-clear failure whose error carries no mapped
code produces exactly the same alert text as an order-create failure —
the message is the shared generic one, not a cart-clear-specific error. -/
theorem clear_failure_message_not_distinct :
    (handleSubmitOrder (some u0) dValid demoCart envClearFail).alertMessages
      = (handleSubmitOrder (some u0) dValid demoCart envCreateFail).alertMessages
    ∧ (handleSubmitOrder (some u0) dValid demoCart envClearFail).alertMessages
      = ["Failed to submit order. Please try again."] :=
  ⟨rfl, rfl⟩

/-- C8 as amended: if every order-create succeeds and the cart-clear then
fails, the failure is surfaced through the shared generic error handler
(not a cart-clear-specific message), the created orders remain issued
with no compensation, success is not reported, and the local cart state
is not cleared. -/
theorem submit_clear_failure (u : AuthUser) (d : OrderDetails)
    (items : List CartItem) (env : SubmitEnv) (e : SupabaseError)
    (hid : ¬ u.id = "") (hval : validateOrderDetails d = [])
    (hok : ∀ kb ∈ itemsBySupplier items, env.createOk kb.1 = true)
    (hclear : env.clearError = some e) :
    (handleSubmitOrder (some u) d items env).createCallsIssued
        = (itemsBySupplier items).map (mkOrderRow u d)
    ∧ (handleSubmitOrder (some u) d items env).clearIssuedFor = some u.id
    ∧ (handleSubmitOrder (some u) d items env).alertMessages
        = [handleSupabaseError e "submit order"]
    ∧ (handleSubmitOrder (some u) d items env).orderSuccess = false
    ∧ (handleSubmitOrder (some u) d items env).finalCartItems = items := by
  have hany : ¬ (itemsBySupplier items).any (fun kb => !(env.createOk kb.1)) = true := by
    rw [List.any_eq_true]
    push_neg
    intro kb hmem
    rw [hok kb hmem]
    simp
  simp [handleSubmitOrder, hid, hval, hany, hclear]

/-- Witness for C8 (amended): Scenario E — creates succeed, clear fails,
the local cart still holds the original items. -/
theorem submit_clear_failure_witness :
    (handleSubmitOrder (some u0) dValid demoCart envClearFail).finalCartItems = demoCart :=
  (submit_clear_failure u0 dValid demoCart envClearFail { code := none }
    (by decide) (by decide) (by decide) rfl).2.2.2.2

/-- C9 counterexample: the rows created by a successful submission carry
status "PENDING" (uppercase), which is not the claimed "pending". -/
theorem submit_status_not_lowercase :
    ((handleSubmitOrder (some u0) dValid demoCart envAllOk).createCallsIssued.map
        (fun row => row.status)) = ["PENDING", "PENDING"]
    ∧ ("PENDING" : String) ≠ "pending" := by
  exact ⟨rfl, by decide⟩

/-- C9 as amended: every order row created by the submission workflow is
created with initial status value "PENDING". -/
theorem submit_status_uppercase (user : Option AuthUser) (d : OrderDetails)
    (items : List CartItem) (env : SubmitEnv) :
    ∀ row ∈ (handleSubmitOrder user d items env).createCallsIssued,
      row.status = "PENDING" := by
  intro row hrow
  cases user with
  | none => simp [handleSubmitOrder] at hrow
  | some u =>
    rcases createCallsIssued_cases u d items env with h | h
    · rw [h] at hrow
      cases hrow
    · rw [h] at hrow
      rcases List.mem_map.mp hrow with ⟨kb, _, rfl⟩
      exact mkOrderRow_status u d kb

/-- Witness for C9 (amended) at a concrete created row. -/
theorem submit_status_uppercase_witness :
    (mkOrderRow u0 dValid ("S1", { supplierName := "S1", items := [itemS1] })).status
      = "PENDING" :=
  submit_status_uppercase (some u0) dValid demoCart envAllOk
    (mkOrderRow u0 dValid ("S1", { supplierName := "S1", items := [itemS1] }))
    (by decide)

/-- C10: with an authenticated user, a valid draft and an empty cart, zero
orders are created, the bulk cart-delete keyed on the user id is still
issued, and the submission reports success (there is no empty-cart
guard). -/
theorem submit_empty_cart (u : AuthUser) (d : OrderDetails) (env : SubmitEnv)
    (hid : ¬ u.id = "") (hval : validateOrderDetails d = [])
    (hclear : env.clearError = none) :
    (handleSubmitOrder (some u) d [] env).createCallsIssued = []
    ∧ (handleSubmitOrder (some u) d [] env).clearIssuedFor = some u.id
    ∧ (handleSubmitOrder (some u) d [] env).orderSuccess = true
    ∧ (handleSubmitOrder (some u) d [] env).alertMessages = []
    ∧ (handleSubmitOrder (some u) d [] env).finalCartItems = [] := by
  simp [handleSubmitOrder, hid, hval, hclear, itemsBySupplier]

/-- Witness for C10 at the concrete fixtures. -/
theorem submit_empty_cart_witness :
    (handleSubmitOrder (some u0) dValid [] envAllOk).orderSuccess = true :=
  (submit_empty_cart u0 dValid envAllOk (by decide) (by decide) rfl).2.2.1

end ViquoeCart
